import Mathlib

/-!
Verification of the n8n-mcp telemetry database engine.

The source of truth is the SQL setup script (tables `telemetry_events`,
`telemetry_workflows`, `telemetry_audit_log`, row-level-security policies,
the PL/pgSQL functions `insert_telemetry_event`, `insert_telemetry_workflow`,
`get_telemetry_stats`, `cleanup_old_telemetry_data`,
`create_telemetry_partition`, and the trigger `audit_telemetry_changes`).
This file gives a shallow embedding of that script: tables become lists of
row structures, the PL/pgSQL functions become Lean functions on an explicit
database state, and PostgreSQL-specific semantics that the script relies on
or trips over are modelled explicitly: NULL-returning `array_length` on
empty arrays and CHECK constraints passing on NULL, varchar length bounds,
`ON CONFLICT DO NOTHING`, the absence of an assignment cast from boolean to
integer (which makes the audit trigger raise SQLSTATE 42804 whenever its
body is reached, aborting every non-anonymous mutation), and the fact that
`CREATE TABLE ... PARTITION OF` fails when the parent table was created
without `PARTITION BY`, as both parents here are.
-/

namespace N8nTelemetry

/-- JSONB values, as far as the telemetry schema needs them. -/
inductive Jsonb where
  | object (fields : List (String × Jsonb))
  | arr (elems : List Jsonb)
  | str (s : String)
  | num (n : Int)
  | boolean (b : Bool)
  | null

/-- PostgreSQL `jsonb_typeof`. -/
def jsonbTypeof : Jsonb → String
  | .object _ => "object"
  | .arr _ => "array"
  | .str _ => "string"
  | .num _ => "number"
  | .boolean _ => "boolean"
  | .null => "null"

/-- TIMESTAMPTZ values, modelled as seconds on an absolute (UTC) time line. -/
abbrev Timestamptz := Int

/-- Seconds in one day, used by the model of the `DATE(...)` truncation. -/
def secondsPerDay : Int := 86400

/-- Model of `DATE(t)`: the day number containing the instant `t`. -/
def pgDate (t : Timestamptz) : Int := t.fdiv secondsPerDay

/-- Model of `INTERVAL '2 years'` as a fixed tick count.  Every claim about
the retention reaper compares timestamps only against the cutoff
`now - two_years`, so the exact length of the interval is not load-bearing. -/
def two_years : Int := 2 * 365 * secondsPerDay

/-- PostgreSQL `array_length(arr, 1)`: returns NULL (here `none`) when the
array is empty, because an empty array has no dimension 1.  The script
depends on this: its emptiness checks compare this value against 0. -/
def pgArrayLength (l : List String) : Option Nat :=
  if l.isEmpty then none else some l.length

/-- The SQL condition `array_length(arr, 1) = 0` under three-valued logic:
when `array_length` is NULL the comparison is unknown, which an `IF` treats
as not taken.  Hence this is `false` on the empty array. -/
def pgArrayLengthEqZero (l : List String) : Bool :=
  match pgArrayLength l with
  | some n => n == 0
  | none => false

/-- The CHECK constraint `array_length(node_types, 1) > 0`: a CHECK passes
when its condition is NULL, so the empty array passes this constraint. -/
def pgCheckArrayLengthPos (l : List String) : Bool :=
  match pgArrayLength l with
  | some n => 0 < n
  | none => true

/-- A row of `telemetry_events`.  The `id` column (a generated UUID in the
source) is modelled as a number drawn from a fresh-id counter. -/
structure TelemetryEventRow where
  id : Nat
  user_id : String
  event : String
  properties : Jsonb
  created_at : Timestamptz

/-- A row of `telemetry_workflows`. -/
structure TelemetryWorkflowRow where
  id : Nat
  user_id : String
  workflow_hash : String
  node_count : Int
  node_types : List String
  has_trigger : Bool
  has_webhook : Bool
  complexity : String
  sanitized_workflow : Jsonb
  created_at : Timestamptz

/-- A row of `telemetry_audit_log`.  The `id` and `ip_address` columns are
never read by any function of the script (and `ip_address` is never written),
so they are omitted from the model.  The `record_count` column is INTEGER;
the only write that ever reaches it is the integer row count stored by
`cleanup_old_telemetry_data` (the trigger also targets this column, but its
insert never succeeds — see `audit_telemetry_changes`). -/
structure AuditLogRow where
  operation : String
  table_name : String
  record_count : Int
  user_role : String
  metadata : Jsonb
  created_at : Timestamptz

/-- The database state: the three telemetry tables plus the fresh-identifier
counter standing in for UUID generation. -/
structure TelemetryDb where
  telemetry_events : List TelemetryEventRow
  telemetry_workflows : List TelemetryWorkflowRow
  telemetry_audit_log : List AuditLogRow
  nextId : Nat

/-- The empty database produced by the setup script. -/
def emptyDb : TelemetryDb := ⟨[], [], [], 0⟩

/-- Error taxonomy for the engine, following the spec naming: raised
PL/pgSQL exceptions from the validation blocks are `ValidationError`,
storage-level rejections (varchar bounds, CHECK constraints) are
`StorageError`, and refusals of the access-control layer are
`PermissionDenied`. -/
inductive TelemetryError where
  | PermissionDenied
  | ValidationError (msg : String)
  | StorageError (msg : String)

/-- True exactly when the result is a raised validation exception. -/
def resultIsValidationError {α : Type} : Except TelemetryError α → Bool
  | .error (.ValidationError _) => true
  | _ => false

/-- SQL command kinds, as used by the RLS policies and triggers. -/
inductive SqlCmd where
  | select
  | insert
  | update
  | delete
deriving DecidableEq

/-- The three tables of the schema. -/
inductive TableName where
  | telemetry_events
  | telemetry_workflows
  | telemetry_audit_log
deriving DecidableEq

/-- One row-level-security policy: a role, a target table, and either one
command (`FOR INSERT` and so on) or `none` meaning `FOR ALL`. -/
structure Policy where
  role : String
  table : TableName
  cmd : Option SqlCmd

/-- The policies created by the setup script, in source order:
`anon_insert_telemetry_events`, `anon_insert_telemetry_workflows`,
`service_role_all_telemetry_events`, `service_role_all_telemetry_workflows`,
`service_role_all_audit_log`.  All USING and WITH CHECK conditions in the
script are the constant `true`, so only the (role, table, command) triple is
modelled. -/
def policies : List Policy :=
  [ ⟨"anon", .telemetry_events, some .insert⟩,
    ⟨"anon", .telemetry_workflows, some .insert⟩,
    ⟨"service_role", .telemetry_events, none⟩,
    ⟨"service_role", .telemetry_workflows, none⟩,
    ⟨"service_role", .telemetry_audit_log, none⟩ ]

/-- Whether some policy grants `role` the command `c` on table `t`.  RLS is
enabled on all three tables, so an operation not granted by any policy is
denied. -/
def policyAllows (role : String) (t : TableName) (c : SqlCmd) : Bool :=
  policies.any fun p =>
    p.role == role && p.table == t &&
      (match p.cmd with
       | none => true
       | some c0 => c0 == c)

/-- The trigger function `audit_telemetry_changes`, run once per mutated row
(`FOR EACH ROW`) on both high-volume tables.  When the guarding condition
`TG_OP != INSERT OR role != anon` holds, the body attempts the audit
INSERT, whose `record_count` value is the boolean expression
`OLD.id IS NOT NULL` (for DELETE) or `NEW.id IS NOT NULL` (otherwise) —
but the column is INTEGER and PostgreSQL has no assignment cast from
boolean to integer, so that INSERT raises SQLSTATE 42804 and the trigger
aborts the triggering statement: no audit row is ever written by the
trigger and no non-anonymous mutation can complete.  When the condition
does not hold (an INSERT under the `anon` role) the body is skipped and
the trigger does nothing.  The arguments mirror the trigger context
(TG_OP, TG_TABLE_NAME, current_setting of role, the row presence flag,
NOW()); only the operation and the role decide the outcome. -/
def audit_telemetry_changes (op : SqlCmd) (_t : TableName) (role : String)
    (_record_present : Bool) (_now : Timestamptz) : Except TelemetryError Unit :=
  if op != .insert || role != "anon" then
    .error (.StorageError
      "column record_count is of type integer but expression is of type boolean")
  else .ok ()

/-- Run the AFTER ROW trigger once per mutated row, in sequence: the first
invocation that reaches the audit INSERT raises and aborts the whole
statement. -/
def fireRowTriggers (op : SqlCmd) (t : TableName) (role : String)
    (now : Timestamptz) : Nat → Except TelemetryError Unit
  | 0 => .ok ()
  | n + 1 =>
    match audit_telemetry_changes op t role true now with
    | .error e => .error e
    | .ok _ => fireRowTriggers op t role now n

/-- The validation block of `insert_telemetry_event` (source lines that
check `length(p_user_id) < 16`, the event length range, and
`jsonb_typeof(p_properties)`), split out as the pure event validator. -/
def validate_event_inputs (p_user_id p_event : String) (p_properties : Jsonb) :
    Except TelemetryError Unit :=
  if p_user_id.length < 16 then
    .error (.ValidationError "user_id must be at least 16 characters")
  else if p_event.length < 1 || p_event.length > 100 then
    .error (.ValidationError "event must be between 1 and 100 characters")
  else if jsonbTypeof p_properties != "object" then
    .error (.ValidationError "properties must be a JSON object")
  else .ok ()

/-- The `INSERT INTO telemetry_events` statement: varchar length coercion on
the `user_id` and `event` columns, then the table CHECK constraints, then
the row is stored with a fresh id and the AFTER INSERT row trigger runs.
Under the `anon` session role the trigger skips its body and the insert
commits; under any other role the trigger raises (see
`audit_telemetry_changes`) and the statement aborts with no row stored. -/
def telemetry_events_insert_row (p_user_id p_event : String)
    (p_properties : Jsonb) (role : String) (now : Timestamptz)
    (db : TelemetryDb) : Except TelemetryError (Nat × TelemetryDb) :=
  if 64 < p_user_id.length then
    .error (.StorageError "value too long for type character varying(64)")
  else if 100 < p_event.length then
    .error (.StorageError "value too long for type character varying(100)")
  else if p_user_id.length < 16 then
    .error (.StorageError "violates check constraint telemetry_events_user_id_length")
  else if p_event.length < 1 || 100 < p_event.length then
    .error (.StorageError "violates check constraint telemetry_events_event_length")
  else if jsonbTypeof p_properties != "object" then
    .error (.StorageError "violates check constraint telemetry_events_properties_not_empty")
  else
    match audit_telemetry_changes .insert .telemetry_events role true now with
    | .error e => .error e
    | .ok _ =>
      let row : TelemetryEventRow :=
        ⟨db.nextId, p_user_id, p_event, p_properties, now⟩
      .ok (db.nextId,
        { db with
          telemetry_events := db.telemetry_events ++ [row],
          nextId := db.nextId + 1 })

/-- The function `insert_telemetry_event`: validate, then insert, returning
the new id.  The function is SECURITY DEFINER, so the insert itself is not
subject to the RLS policies; the session role is still what the audit
trigger observes. -/
def insert_telemetry_event (p_user_id p_event : String) (p_properties : Jsonb)
    (role : String) (now : Timestamptz) (db : TelemetryDb) :
    Except TelemetryError (Nat × TelemetryDb) :=
  match validate_event_inputs p_user_id p_event p_properties with
  | .error e => .error e
  | .ok _ => telemetry_events_insert_row p_user_id p_event p_properties role now db

/-- The validation block of `insert_telemetry_workflow`.  Note the emptiness
check is the source condition `array_length(p_node_types, 1) = 0`, which is
never true on the empty array (the comparison is against NULL). -/
def validate_workflow_inputs (p_user_id p_workflow_hash : String)
    (p_node_count : Int) (p_node_types : List String) (p_complexity : String)
    (p_sanitized_workflow : Jsonb) : Except TelemetryError Unit :=
  if p_user_id.length < 16 then
    .error (.ValidationError "user_id must be at least 16 characters")
  else if p_workflow_hash.length != 64 then
    .error (.ValidationError "workflow_hash must be exactly 64 characters")
  else if p_node_count ≤ 0 then
    .error (.ValidationError "node_count must be positive")
  else if pgArrayLengthEqZero p_node_types then
    .error (.ValidationError "node_types cannot be empty")
  else if !(p_complexity == "simple" || p_complexity == "medium" || p_complexity == "complex") then
    .error (.ValidationError "complexity must be simple, medium, or complex")
  else if jsonbTypeof p_sanitized_workflow != "object" then
    .error (.ValidationError "sanitized_workflow must be a JSON object")
  else .ok ()

/-- The `INSERT INTO telemetry_workflows ... ON CONFLICT (workflow_hash,
user_id) DO NOTHING RETURNING id` statement: varchar coercion, CHECK
constraints, then the unique-key arbiter.  On conflict nothing is inserted,
no row trigger fires, and the returned id is NULL (`none`).  On an actual
insert the AFTER INSERT row trigger runs: skipped under `anon`, raising
(and aborting the statement) under any other role. -/
def telemetry_workflows_insert_row (p_user_id p_workflow_hash : String)
    (p_node_count : Int) (p_node_types : List String)
    (p_has_trigger p_has_webhook : Bool) (p_complexity : String)
    (p_sanitized_workflow : Jsonb) (role : String) (now : Timestamptz)
    (db : TelemetryDb) : Except TelemetryError (Option Nat × TelemetryDb) :=
  if 64 < p_user_id.length || 64 < p_workflow_hash.length || 20 < p_complexity.length then
    .error (.StorageError "value too long for type character varying")
  else if p_user_id.length < 16 then
    .error (.StorageError "violates check constraint telemetry_workflows_user_id_length")
  else if p_workflow_hash.length != 64 then
    .error (.StorageError "violates check constraint telemetry_workflows_workflow_hash_length")
  else if p_node_count ≤ 0 then
    .error (.StorageError "violates check constraint telemetry_workflows_node_count_positive")
  else if !pgCheckArrayLengthPos p_node_types then
    .error (.StorageError "violates check constraint telemetry_workflows_node_types_not_empty")
  else if !(p_complexity == "simple" || p_complexity == "medium" || p_complexity == "complex") then
    .error (.StorageError "violates check constraint telemetry_workflows_complexity_enum")
  else if jsonbTypeof p_sanitized_workflow != "object" then
    .error (.StorageError "violates check constraint telemetry_workflows_sanitized_workflow_not_empty")
  else if db.telemetry_workflows.any
      (fun r => r.workflow_hash == p_workflow_hash && r.user_id == p_user_id) then
    .ok (none, db)
  else
    match audit_telemetry_changes .insert .telemetry_workflows role true now with
    | .error e => .error e
    | .ok _ =>
      let row : TelemetryWorkflowRow :=
        ⟨db.nextId, p_user_id, p_workflow_hash, p_node_count, p_node_types,
          p_has_trigger, p_has_webhook, p_complexity, p_sanitized_workflow, now⟩
      .ok (some db.nextId,
        { db with
          telemetry_workflows := db.telemetry_workflows ++ [row],
          nextId := db.nextId + 1 })

/-- The function `insert_telemetry_workflow`: validate, then insert with the
duplicate-ignoring arbiter, returning the new id or `none`. -/
def insert_telemetry_workflow (p_user_id p_workflow_hash : String)
    (p_node_count : Int) (p_node_types : List String)
    (p_has_trigger p_has_webhook : Bool) (p_complexity : String)
    (p_sanitized_workflow : Jsonb) (role : String) (now : Timestamptz)
    (db : TelemetryDb) : Except TelemetryError (Option Nat × TelemetryDb) :=
  match validate_workflow_inputs p_user_id p_workflow_hash p_node_count
      p_node_types p_complexity p_sanitized_workflow with
  | .error e => .error e
  | .ok _ => telemetry_workflows_insert_row p_user_id p_workflow_hash
      p_node_count p_node_types p_has_trigger p_has_webhook p_complexity
      p_sanitized_workflow role now db

/-- An anonymous-or-privileged SELECT statement on `telemetry_events`,
issued at the storage boundary where RLS is enforced: an operation not
granted by any policy is refused with `PermissionDenied` (the engine
contract of the spec, which the repository validation script also asserts
for anonymous selects) and leaves the database, audit log included,
untouched.  The filter is an arbitrary row predicate. -/
def selectEvents (role : String) (φ : TelemetryEventRow → Bool)
    (db : TelemetryDb) : Except TelemetryError (List TelemetryEventRow) × TelemetryDb :=
  if policyAllows role .telemetry_events .select then
    (.ok (db.telemetry_events.filter φ), db)
  else (.error .PermissionDenied, db)

/-- A SELECT statement on `telemetry_workflows`, RLS-guarded as above. -/
def selectWorkflows (role : String) (φ : TelemetryWorkflowRow → Bool)
    (db : TelemetryDb) : Except TelemetryError (List TelemetryWorkflowRow) × TelemetryDb :=
  if policyAllows role .telemetry_workflows .select then
    (.ok (db.telemetry_workflows.filter φ), db)
  else (.error .PermissionDenied, db)

/-- An UPDATE statement on `telemetry_events`: if the role is granted
UPDATE, the rows matching the filter are rewritten and the row trigger
fires once per updated row — aborting the statement (state untouched) when
any firing raises; otherwise the statement is refused and the database is
untouched. -/
def updateEvents (role : String) (f : TelemetryEventRow → TelemetryEventRow)
    (φ : TelemetryEventRow → Bool) (now : Timestamptz) (db : TelemetryDb) :
    Except TelemetryError Nat × TelemetryDb :=
  if policyAllows role .telemetry_events .update then
    let touched := db.telemetry_events.filter φ
    match fireRowTriggers .update .telemetry_events role now touched.length with
    | .error e => (.error e, db)
    | .ok _ =>
      (.ok touched.length,
        { db with
          telemetry_events := db.telemetry_events.map (fun r => if φ r then f r else r) })
  else (.error .PermissionDenied, db)

/-- An UPDATE statement on `telemetry_workflows`, RLS-guarded and
trigger-guarded as above. -/
def updateWorkflows (role : String)
    (f : TelemetryWorkflowRow → TelemetryWorkflowRow)
    (φ : TelemetryWorkflowRow → Bool) (now : Timestamptz) (db : TelemetryDb) :
    Except TelemetryError Nat × TelemetryDb :=
  if policyAllows role .telemetry_workflows .update then
    let touched := db.telemetry_workflows.filter φ
    match fireRowTriggers .update .telemetry_workflows role now touched.length with
    | .error e => (.error e, db)
    | .ok _ =>
      (.ok touched.length,
        { db with
          telemetry_workflows := db.telemetry_workflows.map (fun r => if φ r then f r else r) })
  else (.error .PermissionDenied, db)

/-- A DELETE statement on `telemetry_events`: if the role is granted
DELETE, the rows matching the filter are removed and the row trigger fires
once per deleted row — aborting the statement (state untouched) when any
firing raises, which happens whenever at least one row is deleted, since
the trigger body is always reached for DELETE; otherwise the statement is
refused and the database is untouched. -/
def deleteEvents (role : String) (φ : TelemetryEventRow → Bool)
    (now : Timestamptz) (db : TelemetryDb) :
    Except TelemetryError Nat × TelemetryDb :=
  if policyAllows role .telemetry_events .delete then
    let deleted := db.telemetry_events.filter φ
    match fireRowTriggers .delete .telemetry_events role now deleted.length with
    | .error e => (.error e, db)
    | .ok _ =>
      (.ok deleted.length,
        { db with telemetry_events := db.telemetry_events.filter (fun r => !φ r) })
  else (.error .PermissionDenied, db)

/-- A DELETE statement on `telemetry_workflows`, RLS-guarded and
trigger-guarded as above. -/
def deleteWorkflows (role : String) (φ : TelemetryWorkflowRow → Bool)
    (now : Timestamptz) (db : TelemetryDb) :
    Except TelemetryError Nat × TelemetryDb :=
  if policyAllows role .telemetry_workflows .delete then
    let deleted := db.telemetry_workflows.filter φ
    match fireRowTriggers .delete .telemetry_workflows role now deleted.length with
    | .error e => (.error e, db)
    | .ok _ =>
      (.ok deleted.length,
        { db with telemetry_workflows := db.telemetry_workflows.filter (fun r => !φ r) })
  else (.error .PermissionDenied, db)

/-- The function `cleanup_old_telemetry_data`: computes the cutoff
`NOW() - INTERVAL '2 years'`, runs `DELETE FROM telemetry_events` and then
`DELETE FROM telemetry_workflows` for the rows older than the cutoff — the
AFTER DELETE row trigger firing once per deleted row, so as soon as either
delete removes at least one row the trigger raises its 42804 type error,
the unhandled exception aborts the whole function, and nothing is deleted
or logged.  Only a run that finds nothing to delete reaches the final
statement, which inserts the two summary audit rows (one per store,
`record_count` = rows deleted, metadata carrying the cutoff) and returns
`deleted_events + deleted_workflows`.  `role` is the session role the
trigger observes; for DELETE it does not affect the outcome. -/
def cleanup_old_telemetry_data (role : String) (now : Timestamptz)
    (db : TelemetryDb) : Except TelemetryError (Nat × TelemetryDb) :=
  let cutoff_date := now - two_years
  let deleted_events := db.telemetry_events.filter
    (fun r => decide (r.created_at < cutoff_date))
  match fireRowTriggers .delete .telemetry_events role now deleted_events.length with
  | .error e => .error e
  | .ok _ =>
    let kept_events := db.telemetry_events.filter
      (fun r => !decide (r.created_at < cutoff_date))
    let deleted_workflows := db.telemetry_workflows.filter
      (fun r => decide (r.created_at < cutoff_date))
    match fireRowTriggers .delete .telemetry_workflows role now deleted_workflows.length with
    | .error e => .error e
    | .ok _ =>
      let kept_workflows := db.telemetry_workflows.filter
        (fun r => !decide (r.created_at < cutoff_date))
      .ok (deleted_events.length + deleted_workflows.length,
        { db with
          telemetry_events := kept_events,
          telemetry_workflows := kept_workflows,
          telemetry_audit_log := db.telemetry_audit_log ++
            [ { operation := "DELETE", table_name := "telemetry_events",
                record_count := deleted_events.length,
                user_role := "system",
                metadata := .object [("cutoff_date", .num cutoff_date)],
                created_at := now },
              { operation := "DELETE", table_name := "telemetry_workflows",
                record_count := deleted_workflows.length,
                user_role := "system",
                metadata := .object [("cutoff_date", .num cutoff_date)],
                created_at := now } ] })

/-- One metric row of the `get_telemetry_stats` result set. -/
structure StatsRow where
  metric : String
  value : Int

/-- The function `get_telemetry_stats(start_date, end_date)`, evaluated
against the database with `now` supplying `CURRENT_DATE`.  The first three
metrics range over the supplied window (`BETWEEN start_date AND end_date`);
the two `..._today` metrics compare `DATE(created_at)` with `CURRENT_DATE`
and ignore the window. -/
def get_telemetry_stats (db : TelemetryDb) (now start_date end_date : Timestamptz) :
    List StatsRow :=
  let betweenE : TelemetryEventRow → Bool :=
    fun r => decide (start_date ≤ r.created_at) && decide (r.created_at ≤ end_date)
  let betweenW : TelemetryWorkflowRow → Bool :=
    fun r => decide (start_date ≤ r.created_at) && decide (r.created_at ≤ end_date)
  [ ⟨"total_events", ((db.telemetry_events.filter betweenE).length : Int)⟩,
    ⟨"total_workflows", ((db.telemetry_workflows.filter betweenW).length : Int)⟩,
    ⟨"unique_users",
      ((((db.telemetry_events.filter betweenE).map (fun r => r.user_id)) ++
        ((db.telemetry_workflows.filter betweenW).map (fun r => r.user_id))).dedup.length : Int)⟩,
    ⟨"events_today",
      ((db.telemetry_events.filter (fun r => pgDate r.created_at == pgDate now)).length : Int)⟩,
    ⟨"workflows_today",
      ((db.telemetry_workflows.filter (fun r => pgDate r.created_at == pgDate now)).length : Int)⟩ ]

/-- Lookup of a metric in a stats result set. -/
def statValue (rows : List StatsRow) (m : String) : Option Int :=
  (rows.find? (fun r => r.metric == m)).map (fun r => r.value)

/-- Calendar dates for the partition manager. -/
structure PgDate where
  year : Nat
  month : Nat
  day : Nat
deriving DecidableEq

/-- Gregorian leap years. -/
def isLeap (y : Nat) : Bool :=
  (y % 4 == 0 && y % 100 != 0) || y % 400 == 0

/-- Days in a calendar month. -/
def daysInMonth (y m : Nat) : Nat :=
  if m == 2 then (if isLeap y then 29 else 28)
  else if m == 4 || m == 6 || m == 9 || m == 11 then 30
  else 31

/-- PostgreSQL `date + INTERVAL '1 month'`: advance the month, clamping the
day to the length of the target month. -/
def addOneMonth (d : PgDate) : PgDate :=
  let y := if d.month == 12 then d.year + 1 else d.year
  let m := if d.month == 12 then 1 else d.month + 1
  ⟨y, m, min d.day (daysInMonth y m)⟩

/-- Left-pad a numeral with zeros to the given width. -/
def padNat (width n : Nat) : String :=
  let s := toString n
  String.mk (List.replicate (width - s.length) '0') ++ s

/-- PostgreSQL `to_char(date, 'YYYY_MM')`. -/
def toCharYYYYMM (d : PgDate) : String :=
  padNat 4 d.year ++ "_" ++ padNat 2 d.month

/-- Total order key for calendar dates (month is at most 12, day at most
31, so the decimal packing is order-faithful). -/
def PgDate.key (d : PgDate) : Nat := d.year * 10000 + d.month * 100 + d.day

/-- A created partition: its parent table, its name and its covered
half-open date range. -/
structure Partition where
  parent : String
  name : String
  lo : PgDate
  hi : PgDate
deriving DecidableEq

/-- The DDL state the partition manager acts on: which parent tables were
created with `PARTITION BY` and which partitions exist. -/
structure DdlState where
  partitioned_parents : List String
  partitions : List Partition
deriving DecidableEq

/-- The schema as created by the setup script: `telemetry_events` and
`telemetry_workflows` are created as plain tables — the `CREATE TABLE`
statements carry no `PARTITION BY` clause, and the conversion commands in
the script are commented out as a manual step — so no parent is
partitioned and no partition exists. -/
def setupDdl : DdlState := ⟨[], []⟩

/-- Model of `CREATE TABLE IF NOT EXISTS <pname> PARTITION OF <parent> FOR
VALUES FROM <lo> TO <hi>`: if a relation of that name already exists the
statement is skipped; otherwise attaching to a parent that is not
partitioned raises (SQLSTATE 42809, `<parent> is not partitioned`), a
bound range overlapping an existing partition of the same parent raises,
and otherwise the partition is created. -/
def createPartitionOf (st : DdlState) (parent pname : String)
    (lo hi : PgDate) : Except TelemetryError DdlState :=
  if st.partitions.any (fun p => p.name == pname) then .ok st
  else if !(st.partitioned_parents.contains parent) then
    .error (.StorageError (parent ++ " is not partitioned"))
  else if st.partitions.any
      (fun p => p.parent == parent && p.lo.key < hi.key && lo.key < p.hi.key) then
    .error (.StorageError "partition would overlap an existing partition")
  else .ok { st with partitions := st.partitions ++ [⟨parent, pname, lo, hi⟩] }

/-- The function `create_telemetry_partition(table_name, start_date)`:
computes `end_date := start_date + INTERVAL '1 month'` and the name
`table_name || '_' || to_char(start_date, 'YYYY_MM')`, then runs the
`CREATE TABLE ... PARTITION OF` statement when the table is
`telemetry_events`, and again when it is `telemetry_workflows`; any other
table name changes nothing.  Against the schema the setup script creates,
the DDL always raises because neither parent is partitioned. -/
def create_telemetry_partition (table_name : String) (start_date : PgDate)
    (st : DdlState) : Except TelemetryError DdlState :=
  let end_date := addOneMonth start_date
  let partition_name := table_name ++ "_" ++ toCharYYYYMM start_date
  match (if table_name == "telemetry_events" then
      createPartitionOf st table_name partition_name start_date end_date
    else .ok st) with
  | .error e => .error e
  | .ok st1 =>
    if table_name == "telemetry_workflows" then
      createPartitionOf st1 table_name partition_name start_date end_date
    else .ok st1

/-- Well-formedness of the fresh-id counter: every stored row id is below
the counter (the model of UUID generation never reissuing an identifier). -/
def FreshIds (db : TelemetryDb) : Prop :=
  (∀ r ∈ db.telemetry_events, r.id < db.nextId) ∧
  (∀ r ∈ db.telemetry_workflows, r.id < db.nextId)

/-- C1: for the `anonymous` principal, every select, update, or delete
statement on `telemetry_events` or `telemetry_workflows` is refused with
`PermissionDenied` no matter what filter (or update function) the statement
carries, the database — audit log included — is left untouched, so the
refusal produces zero audit entries; insert is the only command an RLS
policy grants to `anon` on these stores. -/
theorem anon_write_only_boundary
    (φe : TelemetryEventRow → Bool) (φw : TelemetryWorkflowRow → Bool)
    (fe : TelemetryEventRow → TelemetryEventRow)
    (fw : TelemetryWorkflowRow → TelemetryWorkflowRow)
    (now : Timestamptz) (db : TelemetryDb) :
    selectEvents "anon" φe db = (.error .PermissionDenied, db) ∧
    updateEvents "anon" fe φe now db = (.error .PermissionDenied, db) ∧
    deleteEvents "anon" φe now db = (.error .PermissionDenied, db) ∧
    selectWorkflows "anon" φw db = (.error .PermissionDenied, db) ∧
    updateWorkflows "anon" fw φw now db = (.error .PermissionDenied, db) ∧
    deleteWorkflows "anon" φw now db = (.error .PermissionDenied, db) ∧
    policyAllows "anon" .telemetry_events .insert = true ∧
    policyAllows "anon" .telemetry_workflows .insert = true :=
  ⟨rfl, rfl, rfl, rfl, rfl, rfl, rfl, rfl⟩

/-- C5: `insert_telemetry_event` raises `ValidationError` when the user id
is shorter than 16 characters, when the event tag is empty or longer than
100 characters, or when the properties value is not object-shaped (under
any session role: validation precedes storage); on every valid input (user
id 16 to 64 characters, event 1 to 100 characters, object-shaped
properties) the call on the ingestion surface — which runs under the
`anon` session role, the one role whose inserts the audit trigger does not
abort — stores the event and returns the fresh identifier, which no
previously stored row carries. -/
theorem insert_event_validation_and_success
    (p_user_id p_event : String) (props : Jsonb) (role : String)
    (now : Timestamptz) (db : TelemetryDb) :
    (p_user_id.length < 16 →
      resultIsValidationError
        (insert_telemetry_event p_user_id p_event props role now db) = true) ∧
    (p_event.length = 0 ∨ 100 < p_event.length →
      resultIsValidationError
        (insert_telemetry_event p_user_id p_event props role now db) = true) ∧
    (jsonbTypeof props ≠ "object" →
      resultIsValidationError
        (insert_telemetry_event p_user_id p_event props role now db) = true) ∧
    (16 ≤ p_user_id.length → p_user_id.length ≤ 64 →
     1 ≤ p_event.length → p_event.length ≤ 100 →
     jsonbTypeof props = "object" → FreshIds db →
     insert_telemetry_event p_user_id p_event props "anon" now db =
       .ok (db.nextId,
         { db with
           telemetry_events := db.telemetry_events ++
             [⟨db.nextId, p_user_id, p_event, props, now⟩],
           nextId := db.nextId + 1 }) ∧
     ∀ r ∈ db.telemetry_events, r.id ≠ db.nextId) := by
  refine ⟨?_, ?_, ?_, ?_⟩
  · intro h
    unfold insert_telemetry_event validate_event_inputs
    rw [if_pos h]; rfl
  · intro h
    unfold insert_telemetry_event validate_event_inputs
    by_cases h1 : p_user_id.length < 16
    · rw [if_pos h1]; rfl
    · rw [if_neg h1, if_pos (by simp only [Bool.or_eq_true, decide_eq_true_eq]; omega)]; rfl
  · intro h
    unfold insert_telemetry_event validate_event_inputs
    by_cases h1 : p_user_id.length < 16
    · rw [if_pos h1]; rfl
    · rw [if_neg h1]
      by_cases h2 : (p_event.length < 1 || p_event.length > 100) = true
      · rw [if_pos h2]; rfl
      · rw [if_neg h2, if_pos (by simp [bne_iff_ne]; exact h)]; rfl
  · intro h16 h64 h1 h100 hobj hfresh
    unfold insert_telemetry_event validate_event_inputs
    rw [if_neg (by omega),
        if_neg (by simp only [Bool.or_eq_true, decide_eq_true_eq]; omega),
        if_neg (by simp [hobj])]
    unfold telemetry_events_insert_row
    rw [if_neg (by omega), if_neg (by omega), if_neg (by omega),
        if_neg (by simp only [Bool.or_eq_true, decide_eq_true_eq]; omega),
        if_neg (by simp [hobj])]
    exact ⟨rfl, fun r hr => by have := hfresh.1 r hr; omega⟩

/-- Witness for C5: a concrete valid event is stored with the fresh id 0. -/
theorem insert_event_validation_and_success_witness :
    insert_telemetry_event "aaaaaaaaaaaaaaaa" "tool_usage" (.object []) "anon" 0 emptyDb =
      .ok (0, ⟨[⟨0, "aaaaaaaaaaaaaaaa", "tool_usage", .object [], 0⟩], [], [], 1⟩) :=
  ((insert_event_validation_and_success "aaaaaaaaaaaaaaaa" "tool_usage"
      (.object []) "anon" 0 emptyDb).2.2.2 (by decide) (by decide) (by decide)
      (by decide) rfl ⟨by simp [emptyDb], by simp [emptyDb]⟩).1

/-- C10: an event submission whose user id is longer than 64 characters
(and otherwise valid) passes the validation block untouched — the validator
checks only the lower length bound — and the failure comes from the
`VARCHAR(64)` storage column bound, surfacing as a storage error, with no
row stored (the statement rolls back). -/
theorem long_user_id_rejected_by_storage_not_validator
    (p_user_id p_event : String) (props : Jsonb) (role : String)
    (now : Timestamptz) (db : TelemetryDb)
    (h64 : 64 < p_user_id.length)
    (h1 : 1 ≤ p_event.length) (h100 : p_event.length ≤ 100)
    (hobj : jsonbTypeof props = "object") :
    validate_event_inputs p_user_id p_event props = .ok () ∧
    insert_telemetry_event p_user_id p_event props role now db =
      .error (.StorageError "value too long for type character varying(64)") := by
  have hv : validate_event_inputs p_user_id p_event props = .ok () := by
    unfold validate_event_inputs
    rw [if_neg (by omega),
        if_neg (by simp only [Bool.or_eq_true, decide_eq_true_eq]; omega),
        if_neg (by simp [hobj])]
  refine ⟨hv, ?_⟩
  unfold insert_telemetry_event
  rw [hv]
  unfold telemetry_events_insert_row
  rw [if_pos h64]

/-- Witness for C10: a 65-character user id passes validation but the
insert fails with the varchar storage error. -/
theorem long_user_id_rejected_witness :
    validate_event_inputs
      "aaaaaaaaaaaaaaaaaaaaaaaaaaaaaaaaaaaaaaaaaaaaaaaaaaaaaaaaaaaaaaaaa"
      "tool_usage" (.object []) = .ok () ∧
    insert_telemetry_event
      "aaaaaaaaaaaaaaaaaaaaaaaaaaaaaaaaaaaaaaaaaaaaaaaaaaaaaaaaaaaaaaaaa"
      "tool_usage" (.object []) "anon" 0 emptyDb =
      .error (.StorageError "value too long for type character varying(64)") :=
  long_user_id_rejected_by_storage_not_validator
    "aaaaaaaaaaaaaaaaaaaaaaaaaaaaaaaaaaaaaaaaaaaaaaaaaaaaaaaaaaaaaaaaa"
    "tool_usage" (.object []) "anon" 0 emptyDb (by decide) (by decide)
    (by decide) rfl

/-- C6 (code bug): a workflow submission with an empty `node_types` list
and all other fields valid is NOT rejected — it is stored and a fresh id is
returned.  The emptiness check in `insert_telemetry_workflow` compares
`array_length(p_node_types, 1)` — which is NULL on the empty array — with
0, so it never fires, and the CHECK constraint
`telemetry_workflows_node_types_not_empty` passes because a CHECK accepts a
NULL condition.  The exception message `node_types cannot be empty` and the
constraint name show the code intended to reject this input. -/
theorem empty_node_types_row_is_stored :
    insert_telemetry_workflow "aaaaaaaaaaaaaaaa"
      "0123456789abcdef0123456789abcdef0123456789abcdef0123456789abcdef"
      1 [] true false "simple" (.object []) "anon" 0 emptyDb
    = .ok (some 0,
        ⟨[], [⟨0, "aaaaaaaaaaaaaaaa",
          "0123456789abcdef0123456789abcdef0123456789abcdef0123456789abcdef",
          1, [], true, false, "simple", .object [], 0⟩], [], 1⟩) := rfl

/-- C3: whenever `insert_telemetry_workflow` stored a new row (returned
`some id`), submitting the identical `(workflow_hash, user_id)` pair again
— with any session role and at any time — succeeds without error, returns
`none` (the NULL id produced by `ON CONFLICT DO NOTHING`), changes nothing
(in particular no audit trigger fires), and the store holds exactly one row
for that pair. -/
theorem duplicate_workflow_submission_is_noop
    (uid whash : String) (nc : Int) (nts : List String) (htr hwb : Bool)
    (cx : String) (sw : Jsonb) (role role2 : String) (now now2 : Timestamptz)
    (db db1 : TelemetryDb) (id : Nat)
    (h : insert_telemetry_workflow uid whash nc nts htr hwb cx sw role now db
          = .ok (some id, db1)) :
    insert_telemetry_workflow uid whash nc nts htr hwb cx sw role2 now2 db1
      = .ok (none, db1) ∧
    (db1.telemetry_workflows.filter
      (fun r => r.workflow_hash == whash && r.user_id == uid)).length = 1 := by
  unfold insert_telemetry_workflow at h ⊢
  cases hval : validate_workflow_inputs uid whash nc nts cx sw with
  | error e => rw [hval] at h; exact absurd h (by simp)
  | ok u =>
    rw [hval] at h
    have h2 : telemetry_workflows_insert_row uid whash nc nts htr hwb cx sw
        role now db = .ok (some id, db1) := h
    show telemetry_workflows_insert_row uid whash nc nts htr hwb cx sw
        role2 now2 db1 = .ok (none, db1) ∧
      (db1.telemetry_workflows.filter
        (fun r => r.workflow_hash == whash && r.user_id == uid)).length = 1
    unfold telemetry_workflows_insert_row at h2 ⊢
    split_ifs at h2 with h1 h2c h3 h4 h5 h6 h7 h8
    all_goals try simp only [Except.ok.injEq, Prod.mk.injEq, Option.some.injEq,
      reduceCtorEq, false_and, and_false] at h2
    -- the surviving branch: no conflict, so the insert ran its row trigger
    cases htr : audit_telemetry_changes SqlCmd.insert
        TableName.telemetry_workflows role true now with
    | error e => rw [htr] at h2; exact absurd h2 (by simp)
    | ok v =>
      rw [htr] at h2
      simp only [Except.ok.injEq, Prod.mk.injEq, Option.some.injEq] at h2
      obtain ⟨hid, hdb⟩ := h2
      rw [if_neg h1, if_neg h2c, if_neg h3, if_neg h4, if_neg h5, if_neg h6,
        if_neg h7]
      have hnone : ∀ r ∈ db.telemetry_workflows,
          ¬(r.workflow_hash == whash && r.user_id == uid) = true := by
        intro r hr
        exact fun hc => h8 (List.any_eq_true.mpr ⟨r, hr, hc⟩)
      subst hdb
      constructor
      · rw [if_pos]
        simp only [List.any_append, List.any_cons, List.any_nil, Bool.or_false,
          Bool.or_eq_true]
        exact Or.inr (by simp)
      · simp only [List.filter_append]
        rw [List.filter_eq_nil_iff.mpr hnone]
        simp

/-- Witness for C3: after a concrete first submission stored row 0, the
identical resubmission returns `none` and the store holds one row. -/
theorem duplicate_workflow_submission_witness :
    insert_telemetry_workflow "aaaaaaaaaaaaaaaa"
      "0123456789abcdef0123456789abcdef0123456789abcdef0123456789abcdef"
      2 ["webhook", "http"] true false "simple" (.object []) "anon" 5
      ⟨[], [⟨0, "aaaaaaaaaaaaaaaa",
        "0123456789abcdef0123456789abcdef0123456789abcdef0123456789abcdef",
        2, ["webhook", "http"], true, false, "simple", .object [], 0⟩], [], 1⟩
      = .ok (none,
        ⟨[], [⟨0, "aaaaaaaaaaaaaaaa",
          "0123456789abcdef0123456789abcdef0123456789abcdef0123456789abcdef",
          2, ["webhook", "http"], true, false, "simple", .object [], 0⟩], [], 1⟩) ∧
    ((⟨[], [⟨0, "aaaaaaaaaaaaaaaa",
        "0123456789abcdef0123456789abcdef0123456789abcdef0123456789abcdef",
        2, ["webhook", "http"], true, false, "simple", .object [], 0⟩], [], 1⟩ :
        TelemetryDb).telemetry_workflows.filter
      (fun r => r.workflow_hash ==
        "0123456789abcdef0123456789abcdef0123456789abcdef0123456789abcdef" &&
        r.user_id == "aaaaaaaaaaaaaaaa")).length = 1 :=
  duplicate_workflow_submission_is_noop "aaaaaaaaaaaaaaaa"
    "0123456789abcdef0123456789abcdef0123456789abcdef0123456789abcdef"
    2 ["webhook", "http"] true false "simple" (.object []) "anon" "anon" 0 5
    emptyDb
    ⟨[], [⟨0, "aaaaaaaaaaaaaaaa",
      "0123456789abcdef0123456789abcdef0123456789abcdef0123456789abcdef",
      2, ["webhook", "http"], true, false, "simple", .object [], 0⟩], [], 1⟩
    0 rfl

/-- C2 (code bug, evaluated at the failing input): the audit trigger makes
every privileged (non-anon) mutation of the two stores abort with the
42804 type error — the trigger inserts the boolean `OLD.id IS NOT NULL`
(resp. `NEW.id IS NOT NULL`) into the INTEGER `record_count` column, for
which PostgreSQL has no assignment cast — so no successful privileged
mutation exists and zero audit entries are ever produced by the trigger:
a `service_role` DELETE of one row fails and leaves the state untouched,
and a valid `service_role` insert fails likewise; the faithful half of the
claim holds: an anonymous insert succeeds and is not audited (the audit
log stays empty). -/
theorem privileged_mutation_audit_aborts :
    deleteEvents "service_role" (fun _ => true) two_years
      ⟨[⟨0, "aaaaaaaaaaaaaaaa", "session_start", .object [], 0⟩], [], [], 1⟩
      = (.error (.StorageError
          "column record_count is of type integer but expression is of type boolean"),
        ⟨[⟨0, "aaaaaaaaaaaaaaaa", "session_start", .object [], 0⟩], [], [], 1⟩) ∧
    insert_telemetry_event "bbbbbbbbbbbbbbbb" "session_start" (.object [])
      "service_role" 0 emptyDb
      = .error (.StorageError
          "column record_count is of type integer but expression is of type boolean") ∧
    insert_telemetry_event "bbbbbbbbbbbbbbbb" "session_start" (.object [])
      "anon" 0 emptyDb
      = .ok (0, ⟨[⟨0, "bbbbbbbbbbbbbbbb", "session_start", .object [], 0⟩],
          [], [], 1⟩) :=
  ⟨rfl, rfl, rfl⟩

/-- C4 (code bug, evaluated at the failing input): with any row older than
the cutoff present, `cleanup_old_telemetry_data` aborts inside the per-row
AFTER DELETE audit trigger — the trigger inserts a boolean into the
INTEGER `record_count` column, raising SQLSTATE 42804 — and deletes
nothing, so the cleanup does not delete every row older than the cutoff;
only a run that finds nothing to delete completes, returning 0. -/
theorem cleanup_aborts_on_expired_rows :
    cleanup_old_telemetry_data "service_role" (two_years + 10)
      ⟨[⟨0, "aaaaaaaaaaaaaaaa", "session_start", .object [], 0⟩], [], [], 1⟩
      = .error (.StorageError
          "column record_count is of type integer but expression is of type boolean") ∧
    cleanup_old_telemetry_data "service_role" two_years emptyDb
      = .ok (0, ⟨[], [],
          [⟨"DELETE", "telemetry_events", 0, "system",
            .object [("cutoff_date", .num 0)], two_years⟩,
           ⟨"DELETE", "telemetry_workflows", 0, "system",
            .object [("cutoff_date", .num 0)], two_years⟩], 0⟩) :=
  ⟨rfl, rfl⟩

/-- C7 (code bug, evaluated at the failing input): an invocation of the
cleanup that actually deletes rows never reaches its summary INSERT — the
per-row AFTER DELETE audit trigger raises the 42804 type error first, so
the invocation aborts having written zero audit entries, not one per
store; only an invocation that deletes nothing reaches the summary INSERT,
and that one does write exactly one entry per store with operation DELETE,
user_role system, record_count equal to the (necessarily zero) rows
deleted, and metadata carrying the cutoff. -/
theorem cleanup_summary_audit_unreachable :
    cleanup_old_telemetry_data "service_role" (two_years + 20)
      ⟨[], [⟨0, "aaaaaaaaaaaaaaaa",
        "0123456789abcdef0123456789abcdef0123456789abcdef0123456789abcdef",
        2, ["webhook", "http"], true, false, "simple", .object [], 0⟩], [], 1⟩
      = .error (.StorageError
          "column record_count is of type integer but expression is of type boolean") ∧
    cleanup_old_telemetry_data "service_role" two_years
      ⟨[⟨0, "aaaaaaaaaaaaaaaa", "session_start", .object [], two_years⟩], [], [], 1⟩
      = .ok (0, ⟨[⟨0, "aaaaaaaaaaaaaaaa", "session_start", .object [], two_years⟩], [],
          [⟨"DELETE", "telemetry_events", 0, "system",
            .object [("cutoff_date", .num 0)], two_years⟩,
           ⟨"DELETE", "telemetry_workflows", 0, "system",
            .object [("cutoff_date", .num 0)], two_years⟩], 1⟩) :=
  ⟨rfl, rfl⟩

/-- C8 (code bug, evaluated to fail for every reference date): against the
schema the setup script creates, the partition-creating DDL always raises
— the parent tables carry no `PARTITION BY` clause (the conversion
commands are left in the script as a commented-out manual step), so
`CREATE TABLE ... PARTITION OF` fails with `is not partitioned` for either
store and every reference date; no partition is ever created and a repeat
call for the same month fails identically instead of finding an existing
partition.  Only the identifier derivation
`table_name || _ || to_char(start_date, YYYY_MM)` behaves as claimed. -/
theorem partition_creation_always_fails (d : PgDate) :
    create_telemetry_partition "telemetry_events" d setupDdl
      = .error (.StorageError "telemetry_events is not partitioned") ∧
    create_telemetry_partition "telemetry_workflows" d setupDdl
      = .error (.StorageError "telemetry_workflows is not partitioned") :=
  ⟨rfl, rfl⟩

/-- C9: in `get_telemetry_stats` the `events_today` and `workflows_today`
metrics count the rows whose `created_at` falls on the current calendar
date, whatever window `(start_date, end_date)` the caller supplies — the
two metrics are identical across any two windows, including windows that
exclude today. -/
theorem stats_today_ignores_window (db : TelemetryDb)
    (now s1 e1 s2 e2 : Timestamptz) :
    statValue (get_telemetry_stats db now s1 e1) "events_today"
      = statValue (get_telemetry_stats db now s2 e2) "events_today" ∧
    statValue (get_telemetry_stats db now s1 e1) "events_today"
      = some ((db.telemetry_events.filter
          (fun r => pgDate r.created_at == pgDate now)).length : Int) ∧
    statValue (get_telemetry_stats db now s1 e1) "workflows_today"
      = statValue (get_telemetry_stats db now s2 e2) "workflows_today" ∧
    statValue (get_telemetry_stats db now s1 e1) "workflows_today"
      = some ((db.telemetry_workflows.filter
          (fun r => pgDate r.created_at == pgDate now)).length : Int) :=
  ⟨rfl, rfl, rfl, rfl⟩

end N8nTelemetry
